import Mathlib

set_option maxRecDepth 10000

/-!
Shallow embedding of the core of the LyzrCore/spaces repository:
the mock orchestrator (apps/shared/orchestrator/mock_orchestrator.py)
and the list page template (apps/shared/pages/list_page.py),
together with theorems settling the specification claims about them.

Conventions of the embedding:
- Python dicts used as form submissions / list items become association
  lists preserving insertion order (Python dicts preserve insertion order).
- Python values flowing through the orchestrator are strings or numbers
  (the form fields produce text or numeric values), embedded as `Value`.
- Python operations that can raise are embedded in `Except String`;
  the only fallible operation on the modelled paths is `.lower()` on a
  field value, which raises AttributeError when the value is a number.
- `random.randint(1000, 9999)` is embedded by passing the draw of the
  random number generator as an explicit parameter `r : Nat`, reduced
  into the inclusive range 1000..9999.
- `time.sleep` delays in the streaming generator are real-time effects
  with no functional content and are not modelled; the generator is
  embedded as the list of events it yields, paired with the error it
  raises (if any) after those events.
- HTML/CSS string assembly in the list page is presentation; the render
  result is embedded as structured data (headers/rows, card tuples)
  recording exactly which row contents appear and in which order.
-/

/-! ## Python-level primitives -/

/-- A form field value: Python str or number. -/
inductive Value where
  | str (s : String)
  | num (n : Int)
deriving DecidableEq

/-- Python str(v). -/
def Value.pyStr : Value → String
  | Value.str s => s
  | Value.num n => toString n

/-- Python truthiness of a field value: empty string and zero are falsy. -/
def Value.truthy : Value → Bool
  | Value.str s => !s.isEmpty
  | Value.num n => n != 0

/-- A form submission / list row: mapping from field key to value,
in insertion order (Python dict). -/
abbrev FormSubmission := List (String × Value)

/-- Python `d.get(key)`: first binding of the key, if any. -/
def lookupField : FormSubmission → String → Option Value
  | [], _ => none
  | (k, v) :: rest, key => if k = key then some v else lookupField rest key

/-- Python `d.get(key, default)`. -/
def getField (input_data : FormSubmission) (key : String) (dflt : Value) : Value :=
  (lookupField input_data key).getD dflt

/-- Character-list prefix test (used to embed Python substring search). -/
def chars_prefix : List Char → List Char → Bool
  | [], _ => true
  | _ :: _, [] => false
  | a :: as, b :: bs => a = b && chars_prefix as bs

/-- Character-list infix test. -/
def chars_infix (pat : List Char) : List Char → Bool
  | [] => pat.isEmpty
  | c :: rest => chars_prefix pat (c :: rest) || chars_infix pat rest

/-- Python `pat in s` on strings: substring containment. -/
def str_in (pat s : String) : Bool := chars_infix pat.data s.data

/-- Python `s.lower()` on a string (ASCII case folding, which covers every
string occurring in this code base). -/
def py_lower (s : String) : String := String.mk (s.data.map Char.toLower)

/-- Python `v.lower()` on a field value: succeeds on strings, raises
AttributeError on numbers (Python numbers have no `lower` method). -/
def value_lower : Value → Except String String
  | Value.str s => Except.ok (py_lower s)
  | Value.num _ => Except.error "AttributeError"

/-- Models Python `random.randint(1000, 9999)`: the generator draw `r`
is reduced into the inclusive range 1000..9999. -/
def randint_1000_9999 (r : Nat) : Nat := 1000 + r % 9000

deriving instance DecidableEq for Except

/-! ## Orchestrator data model (mock_orchestrator.py) -/

/-- Configuration for an agent (`AgentConfig`). -/
structure AgentConfig where
  name : String
  role : String
  triggers : List String := []
deriving DecidableEq

/-- Configuration for a blueprint (`BlueprintConfig`). -/
structure BlueprintConfig where
  id : String
  name : String
  domain : String
  manager : AgentConfig
  workers : List AgentConfig := []
deriving DecidableEq

/-- The orchestrator object: holds the blueprint it was constructed with.
The dict-to-dataclass conversion in `__init__` is construction glue and is
not modelled; the response-generator dispatch table built in `__init__`
(keys "it_operations", "customer_service", "default", looked up with
`dict.get(domain, generators["default"])`) is embedded directly in
`MockOrchestrator.process`. -/
structure MockOrchestrator where
  blueprint : BlueprintConfig
deriving DecidableEq

/-- One event of the generated incident timeline. -/
structure TimelineEvent where
  time : String
  event : String
  agent : String
deriving DecidableEq

/-- Result of `_generate_it_response` (the IT incident dict). `title` and
`affected_system` carry the field values through unchanged, so they keep
type `Value`. -/
structure ITResponse where
  incident_id : String
  title : Value
  status : String
  severity : String
  affected_system : Value
  assigned_to : String
  timeline : List TimelineEvent
  root_cause : String
  resolution : String
  recommendations : List String
deriving DecidableEq

/-- Result of `_generate_support_response`. -/
structure SupportResponse where
  ticket_id : String
  status : String
  response : String
  category : String
  resolution_time : String
deriving DecidableEq

/-- Result of `_generate_default_response`. -/
structure DefaultResponse where
  status : String
  message : String
  input_received : FormSubmission
deriving DecidableEq

/-- A `process` result: one of the three domain-specific response dicts. -/
inductive OrchResult where
  | it (resp : ITResponse)
  | support (resp : SupportResponse)
  | dflt (resp : DefaultResponse)
deriving DecidableEq

/-! ## Orchestrator algorithm -/

/-- Keyword tier for "P1 - Critical" in `_determine_severity`. -/
def critical_keywords : List String :=
  ["down", "outage", "critical", "production", "100%", "all users"]

/-- Keyword tier for "P2 - High" in `_determine_severity`. -/
def high_keywords : List String :=
  ["slow", "degraded", "high cpu", "high memory", "timeout"]

/-- Keyword tier for "P3 - Medium" in `_determine_severity`. -/
def medium_keywords : List String :=
  ["intermittent", "some users", "error rate"]

/-- `MockOrchestrator._determine_severity`. -/
def MockOrchestrator._determine_severity (description : String) : String :=
  if critical_keywords.any (fun kw => str_in kw description) then "P1 - Critical"
  else if high_keywords.any (fun kw => str_in kw description) then "P2 - High"
  else if medium_keywords.any (fun kw => str_in kw description) then "P3 - Medium"
  else "P4 - Low"

/-- `MockOrchestrator._generate_it_timeline`. -/
def MockOrchestrator._generate_it_timeline (description : String) : List TimelineEvent :=
  let events : List TimelineEvent := [
    { time := "00:00", event := "Incident reported", agent := "System Monitoring" },
    { time := "00:02", event := "Alert triaged and severity assigned", agent := "Alert Triage" },
    { time := "00:05", event := "Investigation started", agent := "Root Cause Analysis" }]
  let events := if str_in "cpu" description || str_in "memory" description then
      events ++ [
        { time := "00:08", event := "Resource exhaustion detected", agent := "System Monitoring" },
        { time := "00:12", event := "Scaling remediation initiated", agent := "Root Cause Analysis" }]
    else events
  let events := if str_in "deploy" description || str_in "release" description then
      events ++ [
        { time := "00:08", event := "Recent deployment identified", agent := "Root Cause Analysis" },
        { time := "00:10", event := "Rollback initiated", agent := "Escalation Coordinator" }]
    else events
  events ++ [{ time := "00:15", event := "Resolution in progress", agent := "Incident Coordinator" }]

/-- Root cause string of the cpu branch of `_generate_root_cause`. -/
def root_cause_cpu : String :=
  "Root cause identified as CPU exhaustion due to inefficient query processing in the database layer. The query optimizer failed to use the correct index, causing full table scans under high load."

/-- Root cause string of the memory branch of `_generate_root_cause`. -/
def root_cause_memory : String :=
  "Memory leak detected in the application service. The connection pool was not properly releasing connections, leading to gradual memory exhaustion over time."

/-- Root cause string of the deploy/release branch of `_generate_root_cause`. -/
def root_cause_deploy : String :=
  "Issue traced to recent deployment (v2.3.1). A configuration change in the service mesh caused intermittent connection failures between microservices."

/-- Root cause string of the timeout branch of `_generate_root_cause`. -/
def root_cause_timeout : String :=
  "Timeout caused by database connection pool exhaustion. The connection limit was reached due to long-running transactions not being properly closed."

/-- Root cause string of the error branch of `_generate_root_cause`. -/
def root_cause_error : String :=
  "Error spike caused by upstream API rate limiting. The external service began rejecting requests after exceeding the quota limit."

/-- Root cause string of the fallback branch of `_generate_root_cause`. -/
def root_cause_default : String :=
  "Investigation identified the root cause as a configuration drift between environments. The production configuration was missing critical environment variables added in the last release."

/-- Resolution string of the cpu branch of `_generate_resolution`. -/
def resolution_cpu : String :=
  "1. Added missing database index\n2. Optimized query patterns\n3. Increased connection pool size\n4. Deployed hotfix to production"

/-- Resolution string of the memory branch of `_generate_resolution`. -/
def resolution_memory : String :=
  "1. Identified leaking connections\n2. Applied connection pool fix\n3. Restarted affected services\n4. Verified memory stabilization"

/-- Resolution string of the deploy branch of `_generate_resolution`. -/
def resolution_deploy : String :=
  "1. Initiated rollback to v2.3.0\n2. Verified service connectivity\n3. Confirmed user impact resolved\n4. Scheduled hotfix for configuration issue"

/-- Resolution string of the fallback branch of `_generate_resolution`. -/
def resolution_default : String :=
  "1. Identified affected components\n2. Applied configuration fix\n3. Verified system stability\n4. Confirmed resolution with monitoring"

/-- `MockOrchestrator._generate_root_cause`: cpu, then memory, then
deploy-or-release, then timeout, then error, else default. -/
def MockOrchestrator._generate_root_cause (description : String) : String :=
  if str_in "cpu" description then root_cause_cpu
  else if str_in "memory" description then root_cause_memory
  else if str_in "deploy" description || str_in "release" description then root_cause_deploy
  else if str_in "timeout" description then root_cause_timeout
  else if str_in "error" description then root_cause_error
  else root_cause_default

/-- `MockOrchestrator._generate_resolution`: cpu, then memory, then deploy
(note: no release, timeout or error branch), else default. -/
def MockOrchestrator._generate_resolution (description : String) : String :=
  if str_in "cpu" description then resolution_cpu
  else if str_in "memory" description then resolution_memory
  else if str_in "deploy" description then resolution_deploy
  else resolution_default

/-- The incident dict assembled at the end of `_generate_it_response`,
once the description has been successfully lowercased. -/
def MockOrchestrator.it_result (input_data : FormSubmission) (description : String)
    (r : Nat) : OrchResult :=
  OrchResult.it {
    incident_id := "INC-" ++ toString (randint_1000_9999 r),
    title := getField input_data "title" (Value.str "Incident"),
    status := "In Progress",
    severity := MockOrchestrator._determine_severity description,
    affected_system := getField input_data "affected_system" (Value.str "Unknown System"),
    assigned_to := "On-Call Team",
    timeline := MockOrchestrator._generate_it_timeline description,
    root_cause := MockOrchestrator._generate_root_cause description,
    resolution := MockOrchestrator._generate_resolution description,
    recommendations := [
      "Monitor system metrics for the next 24 hours",
      "Schedule post-incident review",
      "Update runbook with findings"] }

/-- `MockOrchestrator._generate_it_response`:
`description = input_data.get("description", "").lower()` (fallible on a
number value), then the incident dict. -/
def MockOrchestrator._generate_it_response (input_data : FormSubmission)
    (r : Nat) : Except String OrchResult :=
  Except.map (fun description => MockOrchestrator.it_result input_data description r)
    (value_lower (getField input_data "description" (Value.str "")))

/-- `MockOrchestrator._generate_support_response`. The `query` lookup
performed by the source is pure and its result is unused, so it is dropped. -/
def MockOrchestrator._generate_support_response (_input_data : FormSubmission)
    (r : Nat) : OrchResult :=
  OrchResult.support {
    ticket_id := "TKT-" ++ toString (randint_1000_9999 r),
    status := "Resolved",
    response := "Thank you for reaching out. Based on your inquiry, here\u0027s what we found...",
    category := "General Inquiry",
    resolution_time := "15 minutes" }

/-- `MockOrchestrator._generate_default_response`. -/
def MockOrchestrator._generate_default_response (input_data : FormSubmission) : OrchResult :=
  OrchResult.dflt {
    status := "Processed",
    message := "Your request has been processed successfully.",
    input_received := input_data }

/-- `MockOrchestrator.process`: dispatch on the blueprint domain through
the generator table (a domain equal to neither "it_operations" nor
"customer_service" falls through to the default generator; the literal
domain "default" hits the same generator by direct lookup). -/
def MockOrchestrator.process (o : MockOrchestrator) (input_data : FormSubmission)
    (r : Nat) : Except String OrchResult :=
  if o.blueprint.domain = "it_operations" then
    MockOrchestrator._generate_it_response input_data r
  else if o.blueprint.domain = "customer_service" then
    Except.ok (MockOrchestrator._generate_support_response input_data r)
  else
    Except.ok (MockOrchestrator._generate_default_response input_data)

/-- The concatenated lowercase text
`" ".join(str(v).lower() for v in input_data.values())`
used by `_get_relevant_workers`. -/
def MockOrchestrator.joined_text (input_data : FormSubmission) : String :=
  String.intercalate " " (input_data.map (fun kv => py_lower (Value.pyStr kv.2)))

/-- `MockOrchestrator._get_relevant_workers`: the workers whose triggers
match the concatenated text (the append loop of the source builds exactly
the filter, in declared order); if none match, the first three workers. -/
def MockOrchestrator._get_relevant_workers (o : MockOrchestrator)
    (input_data : FormSubmission) : List AgentConfig :=
  let text := MockOrchestrator.joined_text input_data
  let relevant := o.blueprint.workers.filter
    (fun w => w.triggers.any (fun t => str_in (py_lower t) text))
  if relevant.isEmpty then o.blueprint.workers.take 3 else relevant

/-- One event yielded by `process_stream`. Python yields dicts with
varying key sets; absent keys are `none`. -/
structure StreamEvent where
  stage : String
  agent : Option String := none
  message : Option String := none
  result : Option OrchResult := none
deriving DecidableEq

/-- `MockOrchestrator.process_stream`: the list of events the generator
yields, paired with the error it raises after those events (if the final
`process` call raises). The fixed `time.sleep` delays between yields are
real-time effects and carry no functional content. -/
def MockOrchestrator.process_stream (o : MockOrchestrator) (input_data : FormSubmission)
    (r : Nat) : List StreamEvent × Option String :=
  let relevant_workers := o._get_relevant_workers input_data
  let pre : List StreamEvent :=
    { stage := "analyzing", agent := some o.blueprint.manager.name,
      message := some "Analyzing your request..." } ::
    relevant_workers.map (fun w =>
      { stage := "processing", agent := some w.name,
        message := some ("Processing: " ++ w.role) }) ++
    [{ stage := "synthesizing", agent := some o.blueprint.manager.name,
       message := some "Synthesizing results..." }]
  match o.process input_data r with
  | Except.ok result => (pre ++ [{ stage := "complete", result := some result }], none)
  | Except.error e => (pre, some e)

/-! ## List page (list_page.py) -/

/-- Configuration for a table column (`ColumnConfig`). -/
structure ColumnConfig where
  key : String
  label : String
  width : Option String := none
  type : String := "text"
deriving DecidableEq

/-- Configuration for the list page (`ListPageConfig`); the
`on_item_click` callback is presentation glue and is not modelled. -/
structure ListPageConfig where
  variant : String := "table"
  title : String := "Items"
  columns : Option (List ColumnConfig) := none
  card_title_key : String := "title"
  card_subtitle_key : Option String := none
  card_badge_key : Option String := none
  empty_title : String := "No items yet"
  empty_description : Option String := none
deriving DecidableEq

/-- The data content of a rendered list page: the empty state, a dataframe
(headers and row cells), a card grid (title, subtitle, badge per card) or a
compact list (title, badge per item), each in render order. The surrounding
HTML/CSS markup is presentation and carries no further data. -/
inductive Rendered where
  | empty_state (title : String) (description : Option String)
  | table (headers : List String) (rows : List (List String))
  | cards (items : List (String × String × String))
  | compact (items : List (String × String))
deriving DecidableEq

/-- Python `str.title()` restricted to ASCII: the first letter of every
alphabetic run is uppercased, the rest lowercased. -/
def py_title_chars : Bool → List Char → List Char
  | _, [] => []
  | prev_alpha, c :: cs =>
    (if c.isAlpha then (if prev_alpha then c.toLower else c.toUpper) else c) ::
      py_title_chars c.isAlpha cs

/-- Python `s.title()`. -/
def py_title (s : String) : String := String.mk (py_title_chars false s.data)

/-- Python `s.replace("_", " ")` (single-character pattern, so a map). -/
def underscores_to_spaces (s : String) : String :=
  String.mk (s.data.map (fun c => if c = '_' then ' ' else c))

/-- Columns auto-generated from the keys of the first item
(`_render_table`, branch with no configured columns). -/
def ListPage.auto_columns : List FormSubmission → List ColumnConfig
  | [] => []
  | item :: _ => item.map (fun kv =>
      { key := kv.1, label := py_title (underscores_to_spaces kv.1) })

/-- Column resolution of `_render_table`: `if not self.config.columns`
(a missing or empty column list is falsy) auto-generate, else use the
configured columns. -/
def ListPage.table_columns (config : ListPageConfig)
    (data : List FormSubmission) : List ColumnConfig :=
  match config.columns with
  | none => ListPage.auto_columns data
  | some [] => ListPage.auto_columns data
  | some cols => cols

/-- One table cell: badge columns show `str(value)`; other columns show
`str(value) if value else ""` (falsy values render empty). -/
def ListPage.table_cell (item : FormSubmission) (col : ColumnConfig) : String :=
  let value := getField item col.key (Value.str "")
  if col.type = "badge" then Value.pyStr value
  else if Value.truthy value then Value.pyStr value else ""

/-- One table row: the inner column loop of `_render_table`. -/
def ListPage.table_row (columns : List ColumnConfig) (item : FormSubmission) : List String :=
  columns.map (ListPage.table_cell item)

/-- The outer item loop of `_render_table` (append per item, in order). -/
def ListPage.table_rows (columns : List ColumnConfig) :
    List FormSubmission → List (List String)
  | [] => []
  | item :: rest => ListPage.table_row columns item :: ListPage.table_rows columns rest

/-- `ListPage._render_table`. -/
def ListPage._render_table (config : ListPageConfig) (data : List FormSubmission) : Rendered :=
  let columns := ListPage.table_columns config data
  Rendered.table (columns.map (fun col => col.label)) (ListPage.table_rows columns data)

/-- The (title, subtitle, badge) data of one card of `_render_cards`. -/
def ListPage.card_of (config : ListPageConfig) (item : FormSubmission) :
    String × String × String :=
  let title := Value.pyStr (getField item config.card_title_key (Value.str "Untitled"))
  let subtitle := match config.card_subtitle_key with
    | some k => Value.pyStr (getField item k (Value.str ""))
    | none => ""
  let badge := match config.card_badge_key with
    | some k => Value.pyStr (getField item k (Value.str ""))
    | none => ""
  (title, subtitle, badge)

/-- The item loop of `_render_cards` (one card appended per item, in order). -/
def ListPage.cards_items (config : ListPageConfig) :
    List FormSubmission → List (String × String × String)
  | [] => []
  | item :: rest => ListPage.card_of config item :: ListPage.cards_items config rest

/-- `ListPage._render_cards`. -/
def ListPage._render_cards (config : ListPageConfig) (data : List FormSubmission) : Rendered :=
  Rendered.cards (ListPage.cards_items config data)

/-- The (title, badge) data of one row of `_render_compact`. -/
def ListPage.compact_of (config : ListPageConfig) (item : FormSubmission) : String × String :=
  (Value.pyStr (getField item config.card_title_key (Value.str "Untitled")),
   match config.card_badge_key with
   | some k => Value.pyStr (getField item k (Value.str ""))
   | none => "")

/-- The item loop of `_render_compact` (one line appended per item, in order). -/
def ListPage.compact_items (config : ListPageConfig) :
    List FormSubmission → List (String × String)
  | [] => []
  | item :: rest => ListPage.compact_of config item :: ListPage.compact_items config rest

/-- `ListPage._render_compact`. -/
def ListPage._render_compact (config : ListPageConfig) (data : List FormSubmission) : Rendered :=
  Rendered.compact (ListPage.compact_items config data)

/-- `ListPage._render_empty`. -/
def ListPage._render_empty (config : ListPageConfig) : Rendered :=
  Rendered.empty_state config.empty_title config.empty_description

/-- `ListPage.render`: the empty state when there is no data, otherwise
dispatch on the variant (unknown variants fall back to the table). -/
def ListPage.render (config : ListPageConfig) (data : List FormSubmission) : Rendered :=
  if data.isEmpty then ListPage._render_empty config
  else if config.variant = "table" then ListPage._render_table config data
  else if config.variant = "cards" then ListPage._render_cards config data
  else if config.variant = "compact" then ListPage._render_compact config data
  else ListPage._render_table config data

/-! ## Concrete configuration (apps/it_service_desk/config.py) -/

/-- `IT_INCIDENT_BLUEPRINT` from the IT service desk configuration. -/
def IT_INCIDENT_BLUEPRINT : BlueprintConfig :=
  { id := "it-incident-response",
    name := "IT Incident Response",
    domain := "it_operations",
    manager := { name := "Incident Coordinator",
                 role := "Orchestrates incident response workflow",
                 triggers := [] },
    workers := [
      { name := "System Monitoring",
        role := "Monitors system health and detects anomalies",
        triggers := ["cpu", "memory", "disk", "performance", "slow", "high"] },
      { name := "Alert Triage",
        role := "Triages alerts and assigns severity",
        triggers := ["alert", "critical", "urgent", "priority"] },
      { name := "Root Cause Analysis",
        role := "Investigates and identifies root cause",
        triggers := ["error", "failure", "bug", "issue", "cause"] },
      { name := "Escalation Coordinator",
        role := "Manages escalations and notifications",
        triggers := ["escalate", "notify", "team", "urgent"] }] }

/-- The orchestrator instance the IT service desk app constructs. -/
def itOrchestrator : MockOrchestrator := { blueprint := IT_INCIDENT_BLUEPRINT }

/-! ## Projections used to state concrete facts about process results -/

/-- Severity of an IT incident result, if the call returned one. -/
def result_severity : Except String OrchResult → Option String
  | Except.ok (OrchResult.it resp) => some resp.severity
  | _ => none

/-- Root cause of an IT incident result, if the call returned one. -/
def result_root_cause : Except String OrchResult → Option String
  | Except.ok (OrchResult.it resp) => some resp.root_cause
  | _ => none

/-- Resolution of an IT incident result, if the call returned one. -/
def result_resolution : Except String OrchResult → Option String
  | Except.ok (OrchResult.it resp) => some resp.resolution
  | _ => none

/-- Timeline of an IT incident result, if the call returned one. -/
def result_timeline : Except String OrchResult → Option (List TimelineEvent)
  | Except.ok (OrchResult.it resp) => some resp.timeline
  | _ => none

/-- The description field holds no number value (so `.lower()` cannot raise). -/
def desc_ok (input_data : FormSubmission) : Bool :=
  match lookupField input_data "description" with
  | some (Value.num _) => false
  | _ => true

/-- A process result with the randomly drawn identifier erased. -/
def strip_identifier : OrchResult → OrchResult
  | OrchResult.it resp => OrchResult.it { resp with incident_id := "" }
  | OrchResult.support resp => OrchResult.support { resp with ticket_id := "" }
  | OrchResult.dflt resp => OrchResult.dflt resp

/-! ## Shared lemmas -/

/-- On an it_operations blueprint, `process` is `_generate_it_response`. -/
theorem process_eq_it (o : MockOrchestrator) (input_data : FormSubmission) (r : Nat)
    (hdom : o.blueprint.domain = "it_operations") :
    o.process input_data r = MockOrchestrator._generate_it_response input_data r := by
  simp [MockOrchestrator.process, hdom]

/-- A successful `_generate_it_response` is the incident dict built from the
lowercased description field. -/
theorem generate_it_ok (input_data : FormSubmission) (r : Nat) (res : OrchResult)
    (h : MockOrchestrator._generate_it_response input_data r = Except.ok res) :
    ∃ d, value_lower (getField input_data "description" (Value.str "")) = Except.ok d ∧
      res = MockOrchestrator.it_result input_data d r := by
  unfold MockOrchestrator._generate_it_response at h
  cases hv : value_lower (getField input_data "description" (Value.str "")) with
  | ok d =>
    rw [hv] at h
    refine ⟨d, rfl, ?_⟩
    simpa [Except.map] using h.symm
  | error e => rw [hv] at h; simp [Except.map] at h

/-- A non-numeric description field lowercases successfully. -/
theorem value_lower_desc (input_data : FormSubmission) (h : desc_ok input_data = true) :
    ∃ d, value_lower (getField input_data "description" (Value.str "")) = Except.ok d := by
  unfold desc_ok at h
  unfold getField
  cases hl : lookupField input_data "description" with
  | none => exact ⟨py_lower "", rfl⟩
  | some v =>
    cases v with
    | str s => exact ⟨py_lower s, rfl⟩
    | num n => rw [hl] at h; simp at h

/-- The severity is always drawn from the fixed four-value set. -/
theorem determine_severity_mem (d : String) :
    MockOrchestrator._determine_severity d ∈
      ["P1 - Critical", "P2 - High", "P3 - Medium", "P4 - Low"] := by
  unfold MockOrchestrator._determine_severity
  split
  · simp
  · split
    · simp
    · split <;> simp

/-- A description containing "outage" always lands in the critical tier. -/
theorem determine_severity_outage (d : String) (h : str_in "outage" d = true) :
    MockOrchestrator._determine_severity d = "P1 - Critical" := by
  unfold MockOrchestrator._determine_severity
  have hc : critical_keywords.any (fun kw => str_in kw d) = true := by
    simp [critical_keywords, h]
  rw [if_pos hc]

/-- Shape of the generated timeline: a fixed 3-event prefix, two optional
independent 2-event branches, and a fixed closing event. -/
theorem it_timeline_shape (d : String) :
    ((MockOrchestrator._generate_it_timeline d).length = 4 ∨
     (MockOrchestrator._generate_it_timeline d).length = 6 ∨
     (MockOrchestrator._generate_it_timeline d).length = 8) ∧
    (MockOrchestrator._generate_it_timeline d).take 3 = [
      { time := "00:00", event := "Incident reported", agent := "System Monitoring" },
      { time := "00:02", event := "Alert triaged and severity assigned", agent := "Alert Triage" },
      { time := "00:05", event := "Investigation started", agent := "Root Cause Analysis" }] ∧
    (MockOrchestrator._generate_it_timeline d).getLast? =
      some { time := "00:15", event := "Resolution in progress", agent := "Incident Coordinator" } := by
  unfold MockOrchestrator._generate_it_timeline
  split <;> split <;> exact ⟨by decide, by decide, by decide⟩

/-- When both keyword families occur, both optional branches append and the
timeline has 8 events. -/
theorem it_timeline_len8 (d : String)
    (h1 : (str_in "cpu" d || str_in "memory" d) = true)
    (h2 : (str_in "deploy" d || str_in "release" d) = true) :
    (MockOrchestrator._generate_it_timeline d).length = 8 := by
  unfold MockOrchestrator._generate_it_timeline
  simp [h1, h2]

/-- When no trigger of any worker matches the concatenated text, the
selection falls back to the first three workers. -/
theorem relevant_workers_no_match (o : MockOrchestrator) (input_data : FormSubmission)
    (h : ∀ w ∈ o.blueprint.workers, ∀ t ∈ w.triggers,
      str_in (py_lower t) (MockOrchestrator.joined_text input_data) = false) :
    o._get_relevant_workers input_data = o.blueprint.workers.take 3 := by
  unfold MockOrchestrator._get_relevant_workers
  have hf : o.blueprint.workers.filter
      (fun w => w.triggers.any
        (fun t => str_in (py_lower t) (MockOrchestrator.joined_text input_data))) = [] := by
    apply List.filter_eq_nil_iff.mpr
    intro w hw
    simp only [Bool.not_eq_true, List.any_eq_false]
    intro t ht
    simp [h w hw t ht]
  simp [hf]

/-- When at least one trigger matches, the selection is exactly the workers
whose triggers match, in declared order. -/
theorem relevant_workers_match (o : MockOrchestrator) (input_data : FormSubmission)
    (w : AgentConfig) (hw : w ∈ o.blueprint.workers) (t : String) (ht : t ∈ w.triggers)
    (h : str_in (py_lower t) (MockOrchestrator.joined_text input_data) = true) :
    o._get_relevant_workers input_data = o.blueprint.workers.filter
      (fun w => w.triggers.any
        (fun t => str_in (py_lower t) (MockOrchestrator.joined_text input_data))) := by
  unfold MockOrchestrator._get_relevant_workers
  have hmem : w ∈ o.blueprint.workers.filter
      (fun w => w.triggers.any
        (fun t => str_in (py_lower t) (MockOrchestrator.joined_text input_data))) := by
    apply List.mem_filter.mpr
    exact ⟨hw, List.any_eq_true.mpr ⟨t, ht, h⟩⟩
  cases hf : o.blueprint.workers.filter
      (fun w => w.triggers.any
        (fun t => str_in (py_lower t) (MockOrchestrator.joined_text input_data))) with
  | nil => rw [hf] at hmem; cases hmem
  | cons a l => simp [hf]

/-- The item loop of `_render_table` renders one row per item, in order. -/
theorem table_rows_eq_map (columns : List ColumnConfig) (data : List FormSubmission) :
    ListPage.table_rows columns data = data.map (ListPage.table_row columns) := by
  induction data with
  | nil => rfl
  | cons item rest ih => simp [ListPage.table_rows, ih]

/-- The item loop of `_render_cards` renders one card per item, in order. -/
theorem cards_items_eq_map (config : ListPageConfig) (data : List FormSubmission) :
    ListPage.cards_items config data = data.map (ListPage.card_of config) := by
  induction data with
  | nil => rfl
  | cons item rest ih => simp [ListPage.cards_items, ih]

/-- The item loop of `_render_compact` renders one line per item, in order. -/
theorem compact_items_eq_map (config : ListPageConfig) (data : List FormSubmission) :
    ListPage.compact_items config data = data.map (ListPage.compact_of config) := by
  induction data with
  | nil => rfl
  | cons item rest ih => simp [ListPage.compact_items, ih]

/-- Incident identifier of an IT incident result, if the call returned one. -/
def result_incident_id : Except String OrchResult → Option String
  | Except.ok (OrchResult.it resp) => some resp.incident_id
  | _ => none

/-! ## Claims -/

/-- Claim C1: for every blueprint with at least one worker in the
it_operations domain, and every input on which `process` returns, the
severity is exactly one of the four values P1 - Critical, P2 - High,
P3 - Medium, P4 - Low, and a severity-text (the lowercased description)
containing "outage" forces "P1 - Critical": the critical tier is checked
first, before the tier containing "slow". -/
theorem c1_severity_in_four_values (o : MockOrchestrator) (input_data : FormSubmission)
    (r : Nat) (res : OrchResult)
    (_hworkers : o.blueprint.workers ≠ [])
    (hdom : o.blueprint.domain = "it_operations")
    (hok : o.process input_data r = Except.ok res) :
    ∃ resp d, res = OrchResult.it resp ∧
      value_lower (getField input_data "description" (Value.str "")) = Except.ok d ∧
      resp.severity ∈ ["P1 - Critical", "P2 - High", "P3 - Medium", "P4 - Low"] ∧
      (str_in "outage" d = true → resp.severity = "P1 - Critical") := by
  rw [process_eq_it o input_data r hdom] at hok
  obtain ⟨d, hd, hres⟩ := generate_it_ok input_data r res hok
  subst hres
  refine ⟨_, d, rfl, hd, ?_, ?_⟩
  · exact determine_severity_mem d
  · intro ho
    exact determine_severity_outage d ho

/-- Witness for C1 at the IT blueprint with description "Outage but slow". -/
theorem c1_severity_in_four_values_witness :
    (itOrchestrator.blueprint.workers ≠ [] ∧
     itOrchestrator.blueprint.domain = "it_operations" ∧
     itOrchestrator.process [("description", Value.str "Outage but slow")] 0 =
       Except.ok (MockOrchestrator.it_result
         [("description", Value.str "Outage but slow")] "outage but slow" 0)) ∧
    (∃ resp d,
      MockOrchestrator.it_result
        [("description", Value.str "Outage but slow")] "outage but slow" 0 =
        OrchResult.it resp ∧
      value_lower (getField [("description", Value.str "Outage but slow")] "description"
        (Value.str "")) = Except.ok d ∧
      resp.severity ∈ ["P1 - Critical", "P2 - High", "P3 - Medium", "P4 - Low"] ∧
      (str_in "outage" d = true → resp.severity = "P1 - Critical")) :=
  ⟨⟨by decide, rfl, by decide⟩,
   c1_severity_in_four_values itOrchestrator [("description", Value.str "Outage but slow")] 0
     (MockOrchestrator.it_result [("description", Value.str "Outage but slow")]
       "outage but slow" 0)
     (by decide) rfl (by decide)⟩

/-- Claim C2 (amended): the text used to determine severity, root cause,
resolution and timeline is exactly the lowercased description field value
(empty when absent) — not the concatenation of all field values, which the
orchestrator uses only for worker selection. -/
theorem c2_severity_text_is_description_only (o : MockOrchestrator)
    (input_data : FormSubmission) (r : Nat) (res : OrchResult)
    (hdom : o.blueprint.domain = "it_operations")
    (hok : o.process input_data r = Except.ok res) :
    ∃ resp d, res = OrchResult.it resp ∧
      value_lower (getField input_data "description" (Value.str "")) = Except.ok d ∧
      resp.severity = MockOrchestrator._determine_severity d ∧
      resp.root_cause = MockOrchestrator._generate_root_cause d ∧
      resp.resolution = MockOrchestrator._generate_resolution d ∧
      resp.timeline = MockOrchestrator._generate_it_timeline d := by
  rw [process_eq_it o input_data r hdom] at hok
  obtain ⟨d, hd, hres⟩ := generate_it_ok input_data r res hok
  subst hres
  exact ⟨_, d, rfl, hd, rfl, rfl, rfl, rfl⟩

/-- Witness for C2 (amended) at description "CPU High". -/
theorem c2_severity_text_is_description_only_witness :
    (itOrchestrator.blueprint.domain = "it_operations" ∧
     itOrchestrator.process [("description", Value.str "CPU High")] 0 =
       Except.ok (MockOrchestrator.it_result [("description", Value.str "CPU High")]
         "cpu high" 0)) ∧
    (∃ resp d,
      MockOrchestrator.it_result [("description", Value.str "CPU High")] "cpu high" 0 =
        OrchResult.it resp ∧
      value_lower (getField [("description", Value.str "CPU High")] "description"
        (Value.str "")) = Except.ok d ∧
      resp.severity = MockOrchestrator._determine_severity d ∧
      resp.root_cause = MockOrchestrator._generate_root_cause d ∧
      resp.resolution = MockOrchestrator._generate_resolution d ∧
      resp.timeline = MockOrchestrator._generate_it_timeline d) :=
  ⟨⟨rfl, by decide⟩,
   c2_severity_text_is_description_only itOrchestrator
     [("description", Value.str "CPU High")] 0
     (MockOrchestrator.it_result [("description", Value.str "CPU High")] "cpu high" 0)
     rfl (by decide)⟩

/-- Counterexample for C2 as stated: the input whose title field is "outage"
and which has no description field gets severity "P4 - Low", although the
concatenation of all field values contains the critical keyword "outage". -/
theorem c2_counterexample_title_outage :
    str_in "outage" (MockOrchestrator.joined_text [("title", Value.str "outage")]) = true ∧
    result_severity (itOrchestrator.process [("title", Value.str "outage")] 0) =
      some "P4 - Low" ∧
    ("P4 - Low" : String) ≠ "P1 - Critical" := by decide

/-- Claim C7 (amended): two `process` calls with equal input on the same
blueprint agree on everything except the randomly drawn identifier: erasing
the identifier makes the result a pure function of the blueprint and input. -/
theorem c7_process_pure_modulo_identifier (o : MockOrchestrator)
    (input_data : FormSubmission) (r1 r2 : Nat) :
    Except.map strip_identifier (o.process input_data r1) =
      Except.map strip_identifier (o.process input_data r2) := by
  unfold MockOrchestrator.process
  split
  · unfold MockOrchestrator._generate_it_response
    cases value_lower (getField input_data "description" (Value.str "")) with
    | ok d => simp [Except.map, MockOrchestrator.it_result, strip_identifier]
    | error e => rfl
  · split
    · simp [Except.map, MockOrchestrator._generate_support_response, strip_identifier]
    · rfl

/-- Counterexample for C7 as stated: two calls with equal input but
consecutive random draws return different results (the incident identifiers
INC-1000 and INC-1001 differ). -/
theorem c7_counterexample_random_identifier :
    result_incident_id (itOrchestrator.process [("description", Value.str "login failure")] 0) =
      some "INC-1000" ∧
    result_incident_id (itOrchestrator.process [("description", Value.str "login failure")] 1) =
      some "INC-1001" ∧
    itOrchestrator.process [("description", Value.str "login failure")] 0 ≠
      itOrchestrator.process [("description", Value.str "login failure")] 1 := by decide

/-- Claim C3 (amended): when `process` returns, `process_stream` yields
exactly the stages analyzing, one processing per relevant worker (in
selection order), synthesizing, complete, and the complete event carries
exactly the `process` result; when `process` raises, the stream yields
analyzing, processing per relevant worker, synthesizing, and then
propagates the error with no complete event. -/
theorem c3_stream_stage_order (o : MockOrchestrator) (input_data : FormSubmission) (r : Nat) :
    (∀ res, o.process input_data r = Except.ok res →
      (o.process_stream input_data r).1.map (fun e => e.stage) =
        "analyzing" :: ((o._get_relevant_workers input_data).map (fun _ => "processing") ++
          ["synthesizing", "complete"]) ∧
      (o.process_stream input_data r).1.getLast? =
        some { stage := "complete", result := some res } ∧
      (o.process_stream input_data r).2 = none) ∧
    (∀ e, o.process input_data r = Except.error e →
      (o.process_stream input_data r).1.map (fun ev => ev.stage) =
        "analyzing" :: ((o._get_relevant_workers input_data).map (fun _ => "processing") ++
          ["synthesizing"]) ∧
      (o.process_stream input_data r).2 = some e) := by
  constructor
  · intro res hres
    unfold MockOrchestrator.process_stream
    rw [hres]
    refine ⟨?_, ?_, rfl⟩
    · simp only [List.map_cons, List.map_append, List.map_map, List.cons_append,
        List.append_assoc, List.singleton_append, List.nil_append]
      rfl
    · exact List.getLast?_concat _
  · intro e he
    unfold MockOrchestrator.process_stream
    rw [he]
    refine ⟨?_, rfl⟩
    simp only [List.map_cons, List.map_append, List.map_map, List.cons_append,
      List.append_assoc, List.singleton_append, List.nil_append]
    rfl

/-- Witness for C3 at the IT blueprint with description "memory leak"
(one matching worker) and with the failing numeric description. -/
theorem c3_stream_stage_order_witness :
    (itOrchestrator.process [("description", Value.str "memory leak")] 0 =
      Except.ok (MockOrchestrator.it_result [("description", Value.str "memory leak")]
        "memory leak" 0)) ∧
    ((itOrchestrator.process_stream [("description", Value.str "memory leak")] 0).1.map
        (fun e => e.stage) =
      "analyzing" ::
        ((itOrchestrator._get_relevant_workers [("description", Value.str "memory leak")]).map
          (fun _ => "processing") ++ ["synthesizing", "complete"]) ∧
      (itOrchestrator.process_stream [("description", Value.str "memory leak")] 0).1.getLast? =
        some { stage := "complete",
               result := some (MockOrchestrator.it_result
                 [("description", Value.str "memory leak")] "memory leak" 0) } ∧
      (itOrchestrator.process_stream [("description", Value.str "memory leak")] 0).2 = none) :=
  ⟨by decide,
   (c3_stream_stage_order itOrchestrator [("description", Value.str "memory leak")] 0).1
     (MockOrchestrator.it_result [("description", Value.str "memory leak")] "memory leak" 0)
     (by decide)⟩

/-- Counterexample for C3 as stated: on the input whose description field is
the number 5, the stream stops after synthesizing with an AttributeError and
never yields a complete event. -/
theorem c3_counterexample_stream_error :
    (itOrchestrator.process_stream [("description", Value.num 5)] 0).1.map (fun e => e.stage) =
      ["analyzing", "processing", "processing", "processing", "synthesizing"] ∧
    (∀ e ∈ (itOrchestrator.process_stream [("description", Value.num 5)] 0).1,
      e.stage ≠ "complete") ∧
    (itOrchestrator.process_stream [("description", Value.num 5)] 0).2 =
      some "AttributeError" := by decide

/-- Claim C4 (amended): the timeline of a returned incident has 4, 6 or 8
events; the first three events and the last event are fixed for all inputs;
the two optional two-event branches are independent, and both append when
the text contains both an infrastructure-resource keyword and a deployment
keyword, giving 8 events. -/
theorem c4_timeline_shape_bounds (o : MockOrchestrator) (input_data : FormSubmission)
    (r : Nat) (res : OrchResult)
    (hdom : o.blueprint.domain = "it_operations")
    (hok : o.process input_data r = Except.ok res) :
    ∃ resp d, res = OrchResult.it resp ∧
      value_lower (getField input_data "description" (Value.str "")) = Except.ok d ∧
      resp.timeline = MockOrchestrator._generate_it_timeline d ∧
      (resp.timeline.length = 4 ∨ resp.timeline.length = 6 ∨ resp.timeline.length = 8) ∧
      resp.timeline.take 3 = [
        { time := "00:00", event := "Incident reported", agent := "System Monitoring" },
        { time := "00:02", event := "Alert triaged and severity assigned", agent := "Alert Triage" },
        { time := "00:05", event := "Investigation started", agent := "Root Cause Analysis" }] ∧
      resp.timeline.getLast? = some
        { time := "00:15", event := "Resolution in progress", agent := "Incident Coordinator" } ∧
      ((str_in "cpu" d || str_in "memory" d) = true →
        (str_in "deploy" d || str_in "release" d) = true →
        resp.timeline.length = 8) := by
  rw [process_eq_it o input_data r hdom] at hok
  obtain ⟨d, hd, hres⟩ := generate_it_ok input_data r res hok
  subst hres
  obtain ⟨h1, h2, h3⟩ := it_timeline_shape d
  exact ⟨_, d, rfl, hd, rfl, h1, h2, h3, fun hc hdep => it_timeline_len8 d hc hdep⟩

/-- Witness for C4 at the IT blueprint with no description field. -/
theorem c4_timeline_shape_bounds_witness :
    (itOrchestrator.blueprint.domain = "it_operations" ∧
     itOrchestrator.process [] 0 = Except.ok (MockOrchestrator.it_result [] "" 0)) ∧
    (∃ resp d, MockOrchestrator.it_result [] "" 0 = OrchResult.it resp ∧
      value_lower (getField [] "description" (Value.str "")) = Except.ok d ∧
      resp.timeline = MockOrchestrator._generate_it_timeline d ∧
      (resp.timeline.length = 4 ∨ resp.timeline.length = 6 ∨ resp.timeline.length = 8) ∧
      resp.timeline.take 3 = [
        { time := "00:00", event := "Incident reported", agent := "System Monitoring" },
        { time := "00:02", event := "Alert triaged and severity assigned", agent := "Alert Triage" },
        { time := "00:05", event := "Investigation started", agent := "Root Cause Analysis" }] ∧
      resp.timeline.getLast? = some
        { time := "00:15", event := "Resolution in progress", agent := "Incident Coordinator" } ∧
      ((str_in "cpu" d || str_in "memory" d) = true →
        (str_in "deploy" d || str_in "release" d) = true →
        resp.timeline.length = 8)) :=
  ⟨⟨rfl, by decide⟩,
   c4_timeline_shape_bounds itOrchestrator [] 0 (MockOrchestrator.it_result [] "" 0)
     rfl (by decide)⟩

/-- Counterexample for C4 as stated: a description containing both "cpu" and
"deploy" makes both optional branches append, so the timeline has 8 events,
outside the claimed 4..6 range. -/
theorem c4_counterexample_timeline_eight_events :
    (result_timeline (itOrchestrator.process
      [("description", Value.str "cpu spike after deploy")] 0)).map List.length = some 8 ∧
    ¬ (8 ≤ 6) := by decide

/-- Claim C5 (amended): root cause is selected by the priority order
cpu, memory, deploy-or-release, timeout, error, default; resolution is
selected by the shorter priority order cpu, memory, deploy, default — it
has no release, timeout or error branch. In particular a text containing
"release" but not "deploy" (and neither "cpu" nor "memory") selects the
deploy/release root cause but the default resolution, and a text containing
"timeout" with no higher-priority keyword selects the timeout root cause
but the default resolution. -/
theorem c5_root_cause_resolution_priority (d : String) :
    (str_in "cpu" d = true →
      MockOrchestrator._generate_root_cause d = root_cause_cpu ∧
      MockOrchestrator._generate_resolution d = resolution_cpu) ∧
    (str_in "cpu" d = false → str_in "memory" d = true →
      MockOrchestrator._generate_root_cause d = root_cause_memory ∧
      MockOrchestrator._generate_resolution d = resolution_memory) ∧
    (str_in "cpu" d = false → str_in "memory" d = false →
      (str_in "deploy" d = true ∨ str_in "release" d = true) →
      MockOrchestrator._generate_root_cause d = root_cause_deploy ∧
      MockOrchestrator._generate_resolution d =
        (if str_in "deploy" d then resolution_deploy else resolution_default)) ∧
    (str_in "cpu" d = false → str_in "memory" d = false → str_in "deploy" d = false →
      str_in "release" d = false → str_in "timeout" d = true →
      MockOrchestrator._generate_root_cause d = root_cause_timeout ∧
      MockOrchestrator._generate_resolution d = resolution_default) ∧
    (str_in "cpu" d = false → str_in "memory" d = false → str_in "deploy" d = false →
      str_in "release" d = false → str_in "timeout" d = false → str_in "error" d = true →
      MockOrchestrator._generate_root_cause d = root_cause_error ∧
      MockOrchestrator._generate_resolution d = resolution_default) ∧
    (str_in "cpu" d = false → str_in "memory" d = false → str_in "deploy" d = false →
      str_in "release" d = false → str_in "timeout" d = false → str_in "error" d = false →
      MockOrchestrator._generate_root_cause d = root_cause_default ∧
      MockOrchestrator._generate_resolution d = resolution_default) := by
  refine ⟨?_, ?_, ?_, ?_, ?_, ?_⟩
  · intro h
    constructor <;>
      simp [MockOrchestrator._generate_root_cause, MockOrchestrator._generate_resolution, h]
  · intro hc hm
    constructor <;>
      simp [MockOrchestrator._generate_root_cause, MockOrchestrator._generate_resolution,
        hc, hm]
  · intro hc hm hdr
    constructor
    · rcases hdr with h | h <;>
        simp [MockOrchestrator._generate_root_cause, hc, hm, h]
    · cases hdep : str_in "deploy" d <;>
        simp [MockOrchestrator._generate_resolution, hc, hm, hdep]
  · intro hc hm hd hr ht
    constructor <;>
      simp [MockOrchestrator._generate_root_cause, MockOrchestrator._generate_resolution,
        hc, hm, hd, hr, ht]
  · intro hc hm hd hr ht he
    constructor <;>
      simp [MockOrchestrator._generate_root_cause, MockOrchestrator._generate_resolution,
        hc, hm, hd, hr, ht, he]
  · intro hc hm hd hr ht he
    constructor <;>
      simp [MockOrchestrator._generate_root_cause, MockOrchestrator._generate_resolution,
        hc, hm, hd, hr, ht, he]

/-- Witness for C5 at the description text "release". -/
theorem c5_root_cause_resolution_priority_witness :
    (str_in "cpu" "release" = false ∧ str_in "memory" "release" = false ∧
     str_in "deploy" "release" = false ∧ str_in "release" "release" = true) ∧
    MockOrchestrator._generate_root_cause "release" = root_cause_deploy ∧
    MockOrchestrator._generate_resolution "release" = resolution_default :=
  ⟨⟨by decide, by decide, by decide, by decide⟩,
   ((c5_root_cause_resolution_priority "release").2.2.1 (by decide) (by decide)
     (Or.inr (by decide))).1,
   by
    have h := ((c5_root_cause_resolution_priority "release").2.2.1 (by decide) (by decide)
      (Or.inr (by decide))).2
    simpa using h⟩

/-- Counterexample for C5 as stated: on description "release", the root
cause takes the deploy/release branch but the resolution takes the default
branch (the resolution table has no release branch), so the deploy/release
branch is not selected for both. -/
theorem c5_counterexample_release_resolution :
    result_root_cause (itOrchestrator.process [("description", Value.str "release")] 0) =
      some root_cause_deploy ∧
    result_resolution (itOrchestrator.process [("description", Value.str "release")] 0) =
      some resolution_default ∧
    resolution_default ≠ resolution_deploy := by decide

/-- Claim C6: if no worker trigger keyword occurs as a substring of the
concatenated lowercase input text, the selection is the first min(3, n)
workers in declared order; if at least one trigger matches, the selection is
exactly the workers with a matching trigger, in declared order. -/
theorem c6_worker_selection (o : MockOrchestrator) (input_data : FormSubmission) :
    ((∀ w ∈ o.blueprint.workers, ∀ t ∈ w.triggers,
        str_in (py_lower t) (MockOrchestrator.joined_text input_data) = false) →
      o._get_relevant_workers input_data = o.blueprint.workers.take 3 ∧
      (o._get_relevant_workers input_data).length = min 3 o.blueprint.workers.length) ∧
    ((∃ w ∈ o.blueprint.workers, ∃ t ∈ w.triggers,
        str_in (py_lower t) (MockOrchestrator.joined_text input_data) = true) →
      o._get_relevant_workers input_data = o.blueprint.workers.filter
        (fun w => w.triggers.any
          (fun t => str_in (py_lower t) (MockOrchestrator.joined_text input_data)))) := by
  constructor
  · intro h
    have he := relevant_workers_no_match o input_data h
    refine ⟨he, ?_⟩
    rw [he]
    exact List.length_take 3 o.blueprint.workers
  · rintro ⟨w, hw, t, ht, h⟩
    exact relevant_workers_match o input_data w hw t ht h

/-- Witness for C6 at the IT blueprint: a non-matching input selects the
first three workers, a "memory leak" input selects exactly System
Monitoring. -/
theorem c6_worker_selection_witness :
    itOrchestrator._get_relevant_workers [("description", Value.str "nothing to see")] =
      IT_INCIDENT_BLUEPRINT.workers.take 3 ∧
    itOrchestrator._get_relevant_workers [("description", Value.str "memory leak")] =
      IT_INCIDENT_BLUEPRINT.workers.filter
        (fun w => w.triggers.any
          (fun t => str_in (py_lower t)
            (MockOrchestrator.joined_text [("description", Value.str "memory leak")]))) :=
  ⟨((c6_worker_selection itOrchestrator
      [("description", Value.str "nothing to see")]).1 (by decide)).1,
   (c6_worker_selection itOrchestrator
      [("description", Value.str "memory leak")]).2 (by decide)⟩

/-- An absent description field lowercases to the empty string. -/
theorem desc_none_lower (input_data : FormSubmission)
    (h : lookupField input_data "description" = none) :
    value_lower (getField input_data "description" (Value.str "")) = Except.ok "" := by
  unfold getField
  rw [h]
  rfl

/-- Claim C8 (amended): for every FormSubmission whose description field,
when present, holds a string, `process` returns a result without raising;
missing optional fields are replaced by the documented defaults (title
"Incident", affected system "Unknown System", description treated as the
empty string, which lands in the default severity, root-cause and
resolution branches). With a number-valued description the it_operations
path raises AttributeError, so the claim does not extend to arbitrary
string-or-number submissions. -/
theorem c8_total_with_defaults (o : MockOrchestrator) (input_data : FormSubmission)
    (r : Nat) (h : desc_ok input_data = true) :
    ∃ res, o.process input_data r = Except.ok res ∧
      (o.blueprint.domain = "it_operations" →
        ∃ resp, res = OrchResult.it resp ∧
          (lookupField input_data "title" = none → resp.title = Value.str "Incident") ∧
          (lookupField input_data "affected_system" = none →
            resp.affected_system = Value.str "Unknown System") ∧
          (lookupField input_data "description" = none →
            resp.severity = "P4 - Low" ∧
            resp.root_cause = root_cause_default ∧
            resp.resolution = resolution_default)) := by
  obtain ⟨d, hd⟩ := value_lower_desc input_data h
  unfold MockOrchestrator.process
  split
  · refine ⟨MockOrchestrator.it_result input_data d r, ?_, ?_⟩
    · unfold MockOrchestrator._generate_it_response
      rw [hd]
      rfl
    · intro _
      refine ⟨_, rfl, ?_, ?_, ?_⟩
      · intro ht
        simp [MockOrchestrator.it_result, getField, ht]
      · intro hs
        simp [MockOrchestrator.it_result, getField, hs]
      · intro hdesc
        have hde : d = "" := by
          have h2 := desc_none_lower input_data hdesc
          rw [hd] at h2
          exact Except.ok.inj h2
        subst hde
        exact ⟨rfl, rfl, rfl⟩
  · split
    · refine ⟨_, rfl, ?_⟩
      intro hdom
      rename_i hnotit _
      exact absurd hdom hnotit
    · refine ⟨_, rfl, ?_⟩
      intro hdom
      rename_i hnotit _
      exact absurd hdom hnotit

/-- Witness for C8 at the empty submission. -/
theorem c8_total_with_defaults_witness :
    desc_ok [] = true ∧
    (∃ res, itOrchestrator.process [] 0 = Except.ok res ∧
      (itOrchestrator.blueprint.domain = "it_operations" →
        ∃ resp, res = OrchResult.it resp ∧
          (lookupField [] "title" = none → resp.title = Value.str "Incident") ∧
          (lookupField [] "affected_system" = none →
            resp.affected_system = Value.str "Unknown System") ∧
          (lookupField [] "description" = none →
            resp.severity = "P4 - Low" ∧
            resp.root_cause = root_cause_default ∧
            resp.resolution = resolution_default))) :=
  ⟨by decide, c8_total_with_defaults itOrchestrator [] 0 (by decide)⟩

/-- Counterexample for C8 as stated: the string-or-number submission whose
description field is the number 5 makes `process` raise AttributeError
(Python numbers have no `lower` method) instead of returning a result. -/
theorem c8_counterexample_numeric_description :
    itOrchestrator.process [("description", Value.num 5)] 0 =
      Except.error "AttributeError" := by decide

/-- Claim C9: for the empty data list every variant renders the documented
empty state; for non-empty data each of the three sub-variants renders one
row/card/line per input item, in exactly the input order (a map over the
data, so no sorting and no filtering). -/
theorem c9_list_render_order_and_empty (config : ListPageConfig)
    (data : List FormSubmission) :
    (ListPage.render config [] =
      Rendered.empty_state config.empty_title config.empty_description) ∧
    (data ≠ [] →
      (config.variant = "table" →
        ListPage.render config data =
          Rendered.table ((ListPage.table_columns config data).map (fun col => col.label))
            (data.map (ListPage.table_row (ListPage.table_columns config data)))) ∧
      (config.variant = "cards" →
        ListPage.render config data =
          Rendered.cards (data.map (ListPage.card_of config))) ∧
      (config.variant = "compact" →
        ListPage.render config data =
          Rendered.compact (data.map (ListPage.compact_of config)))) := by
  constructor
  · rfl
  · intro hne
    have hemp : data.isEmpty = false := by
      cases data with
      | nil => exact absurd rfl hne
      | cons a l => rfl
    refine ⟨?_, ?_, ?_⟩
    · intro hv
      simp [ListPage.render, hemp, hv, ListPage._render_table, table_rows_eq_map]
    · intro hv
      simp [ListPage.render, hemp, hv, ListPage._render_cards, cards_items_eq_map]
    · intro hv
      simp [ListPage.render, hemp, hv, ListPage._render_compact, compact_items_eq_map]

/-- The default list page configuration (all dataclass defaults). -/
def sample_list_config : ListPageConfig := {}

/-- A two-row data set used to witness list rendering. -/
def sample_list_data : List FormSubmission :=
  [[("title", Value.str "A")], [("title", Value.str "B")]]

/-- Witness for C9 at the default configuration and a two-row data set. -/
theorem c9_list_render_order_and_empty_witness :
    (sample_list_data ≠ [] ∧ sample_list_config.variant = "table") ∧
    ListPage.render sample_list_config sample_list_data =
      Rendered.table
        ((ListPage.table_columns sample_list_config sample_list_data).map
          (fun col => col.label))
        (sample_list_data.map
          (ListPage.table_row (ListPage.table_columns sample_list_config sample_list_data))) :=
  ⟨⟨by decide, rfl⟩,
   ((c9_list_render_order_and_empty sample_list_config sample_list_data).2
     (by decide)).1 rfl⟩

/-- Claim C10: blueprints whose domain is neither it_operations nor
customer_service get exactly the fixed default response with the input
embedded unchanged, and an incident-shaped result arises only under the
it_operations domain. -/
theorem c10_domain_dispatch_default (o : MockOrchestrator) (input_data : FormSubmission)
    (r : Nat) :
    ((o.blueprint.domain ≠ "it_operations" ∧ o.blueprint.domain ≠ "customer_service") →
      o.process input_data r = Except.ok (OrchResult.dflt
        { status := "Processed",
          message := "Your request has been processed successfully.",
          input_received := input_data })) ∧
    (∀ resp, o.process input_data r = Except.ok (OrchResult.it resp) →
      o.blueprint.domain = "it_operations") := by
  constructor
  · rintro ⟨h1, h2⟩
    unfold MockOrchestrator.process
    rw [if_neg h1, if_neg h2]
    rfl
  · intro resp hresp
    unfold MockOrchestrator.process at hresp
    by_cases hdom : o.blueprint.domain = "it_operations"
    · exact hdom
    · rw [if_neg hdom] at hresp
      by_cases hcs : o.blueprint.domain = "customer_service"
      · rw [if_pos hcs] at hresp
        simp [MockOrchestrator._generate_support_response] at hresp
      · rw [if_neg hcs] at hresp
        simp [MockOrchestrator._generate_default_response] at hresp

/-- A blueprint with a domain outside the dispatch table. -/
def marketingOrchestrator : MockOrchestrator :=
  { blueprint := { id := "demo", name := "Demo", domain := "marketing",
                   manager := { name := "Planner", role := "Plans campaigns" },
                   workers := [] } }

/-- Witness for C10 at a marketing-domain blueprint. -/
theorem c10_domain_dispatch_default_witness :
    (marketingOrchestrator.blueprint.domain ≠ "it_operations" ∧
     marketingOrchestrator.blueprint.domain ≠ "customer_service") ∧
    marketingOrchestrator.process [("q", Value.str "hello")] 0 = Except.ok (OrchResult.dflt
      { status := "Processed",
        message := "Your request has been processed successfully.",
        input_received := [("q", Value.str "hello")] }) :=
  ⟨⟨by decide, by decide⟩,
   (c10_domain_dispatch_default marketingOrchestrator [("q", Value.str "hello")] 0).1
     ⟨by decide, by decide⟩⟩
